import Mathlib

/-!
Shallow embedding of the simba_cement e-commerce backend (FastAPI + SQLAlchemy).

Each Lean definition translates one Python function or schema from the
repository.  The database is modelled as a record of tables (lists of rows);
request handlers become pure functions `DB → ... → Except HTTPError ...`,
where `.error e` models `raise HTTPException(status_code=e.status,
detail=e.detail)`.  SQLAlchemy's `Float` columns are modelled by `ℚ`
(exact arithmetic standing for the numeric computation the code performs),
`Integer` columns by `ℤ`, and primary keys by `ℕ`.  External libraries
(passlib's bcrypt context, the phonenumbers library) are modelled as
abstract structures carrying only their documented interface.
-/

/-- Result of `raise HTTPException(status_code=..., detail=...)`. -/
structure HTTPError where
  status : Nat
  detail : String
deriving Repr, DecidableEq

/-- Row of the `addresses` table (fields used by checkout). -/
structure Address where
  id : Nat
  user_id : Nat
deriving Repr, DecidableEq

/-- Row of the `products` table (fields used by cart and checkout). -/
structure Product where
  id : Nat
  name : String
  price : ℚ
  stock : ℤ
deriving Repr, DecidableEq

/-- Row of the `carts` table. -/
structure Cart where
  id : Nat
  user_id : Nat
deriving Repr, DecidableEq

/-- Row of the `cart_items` table. -/
structure CartItem where
  id : Nat
  cart_id : Nat
  product_id : Nat
  quantity : ℤ
deriving Repr, DecidableEq

/-- Row of the `orders` table (fields written by checkout). -/
structure Order where
  id : Nat
  buyer_id : Nat
  address_id : Nat
  subtotal : ℚ
  shipping_fee : ℚ
  total_amount : ℚ
  status : String
  notes : Option String
deriving Repr, DecidableEq

/-- Row of the `order_items` table. -/
structure OrderItem where
  order_id : Nat
  product_id : Nat
  product_name : String
  price_at_purchase : ℚ
  quantity : ℤ
deriving Repr, DecidableEq

/-- Row of the `users` table (fields written by register). -/
structure UserRow where
  id : Nat
  name : String
  email : String
  phone : String
  password_hash : String
deriving Repr, DecidableEq

/-- The database: one list per table, plus the autoincrement counters the
primary-key columns provide. -/
structure DB where
  users : List UserRow
  addresses : List Address
  products : List Product
  carts : List Cart
  cartItems : List CartItem
  orders : List Order
  orderItems : List OrderItem
  nextUserId : Nat
  nextCartId : Nat
  nextCartItemId : Nat
  nextOrderId : Nat
deriving Repr, DecidableEq

/-- ASCII apostrophe, used inside error-message strings. -/
def apos : String := String.singleton (Char.ofNat 39)

/-- Lookup of `products` by primary key: `db.get(Product, pid)` /
`select(Product).where(Product.id == pid)`. -/
def findProduct (db : DB) (pid : Nat) : Option Product :=
  db.products.find? (fun p => p.id == pid)

/-- Python dict indexing `products[item.product_id]` in checkout step 6.
Only reached after step 4 has validated that the product exists, so the
default is never used there. -/
def productOf (db : DB) (pid : Nat) : Product :=
  (findProduct db pid).getD ⟨0, "", 0, 0⟩

/-- Detail string of the 404 raised for a cart item whose product row is
missing: `f"Product {item.product_id} not found"`. -/
def productNotFoundMsg (pid : Nat) : String :=
  s!"Product {pid} not found"

/-- Detail string of the 400 raised on insufficient stock:
`f"Not enough stock for '{product.name}'. Available: {product.stock}"`. -/
def stockMsg (p : Product) : String :=
  let n := p.name
  let st := p.stock
  s!"Not enough stock for {apos}{n}{apos}. Available: {st}"

/-- Checkout step 4 (`order.py`): iterate over the cart items, raising 404
for a missing product and 400 for insufficient stock, while accumulating
`subtotal += float(product.price) * item.quantity`. -/
def validateItems (db : DB) : List CartItem → ℚ → Except HTTPError ℚ
  | [], acc => .ok acc
  | it :: rest, acc =>
    match findProduct db it.product_id with
    | none => .error ⟨404, productNotFoundMsg it.product_id⟩
    | some p =>
      if it.quantity > p.stock then
        .error ⟨400, stockMsg p⟩
      else
        validateItems db rest (acc + p.price * (it.quantity : ℚ))

/-- Checkout step 6's stock mutation: for each cart item, the in-memory
product object has `product.stock -= item.quantity` applied. -/
def decrementStock (products : List Product) : List CartItem → List Product
  | [] => products
  | it :: rest =>
    decrementStock
      (products.map fun p =>
        if p.id == it.product_id then { p with stock := p.stock - it.quantity } else p)
      rest

/-- The `checkout` handler (`order.py`): verify the address belongs to the
user, load the cart and its items, validate products and stock, create the
order and its items, decrement stock, delete the cart items, and commit. -/
def checkout (db : DB) (userId addressId : Nat) (notes : Option String) :
    Except HTTPError (DB × Order) :=
  match db.addresses.find? (fun a => a.id == addressId && a.user_id == userId) with
  | none => .error ⟨404, "Address not found"⟩
  | some _ =>
    match db.carts.find? (fun c => c.user_id == userId) with
    | none => .error ⟨404, "Cart not found"⟩
    | some cart =>
      let items := db.cartItems.filter (fun ci => ci.cart_id == cart.id)
      if items.isEmpty then .error ⟨400, "Cart is empty"⟩
      else
        match validateItems db items 0 with
        | .error e => .error e
        | .ok subtotal =>
          let shipping_fee : ℚ := 0
          let total_amount := subtotal + shipping_fee
          let order : Order :=
            ⟨db.nextOrderId, userId, addressId, subtotal, shipping_fee,
             total_amount, "pending", notes⟩
          let newOrderItems := items.map fun it =>
            let p := productOf db it.product_id
            (⟨order.id, p.id, p.name, p.price, it.quantity⟩ : OrderItem)
          let db' : DB :=
            { db with
              products := decrementStock db.products items
              orders := db.orders ++ [order]
              orderItems := db.orderItems ++ newOrderItems
              cartItems := db.cartItems.filter (fun ci => ci.cart_id != cart.id)
              nextOrderId := db.nextOrderId + 1 }
          .ok (db', order)

/-- Database state observed after a checkout request: the handler commits
exactly once, at the end, and every `HTTPException` is raised before any
mutation is committed, so on an error the session is discarded and the
database keeps its prior state. -/
def checkoutRun (db : DB) (userId addressId : Nat) (notes : Option String) : DB :=
  match checkout db userId addressId notes with
  | .ok (db', _) => db'
  | .error _ => db

/-- One cart item is orderable: its product row exists and holds enough
stock for the item's quantity. -/
def itemGood (db : DB) (it : CartItem) : Bool :=
  match findProduct db it.product_id with
  | none => false
  | some p => it.quantity ≤ p.stock

/-- Precondition under which checkout succeeds: the address belongs to the
user, the user has a cart, the cart is non-empty, and every cart item has an
existing product with enough stock. -/
def checkoutOk (db : DB) (userId addressId : Nat) : Bool :=
  (db.addresses.find? (fun a => a.id == addressId && a.user_id == userId)).isSome &&
  match db.carts.find? (fun c => c.user_id == userId) with
  | none => false
  | some cart =>
    let items := db.cartItems.filter (fun ci => ci.cart_id == cart.id)
    !items.isEmpty && items.all (itemGood db)

/-- Total quantity of `pid` across a list of cart items (the net effect of
checkout step 6 on one product row). -/
def qtyOf : List CartItem → Nat → ℤ
  | [], _ => 0
  | it :: rest, pid =>
    (if it.product_id == pid then it.quantity else 0) + qtyOf rest pid

/-- Items of one cart: the `Cart.items` relationship. -/
def cartItemsOf (db : DB) (cartId : Nat) : List CartItem :=
  db.cartItems.filter (fun ci => ci.cart_id == cartId)

/-- Sum the checkout loop accumulates: price of each item's product times
the item's quantity, over the whole cart. -/
def itemsSubtotal (db : DB) (items : List CartItem) : ℚ :=
  (items.map fun it => (productOf db it.product_id).price * (it.quantity : ℚ)).sum

/-- A request failed: models an `HTTPException` escaping the handler. -/
def failed {β : Type} (r : Except HTTPError β) : Bool :=
  match r with
  | .ok _ => false
  | .error _ => true

/-- A request failed with the given HTTP status code. -/
def failedWith {β : Type} (r : Except HTTPError β) (code : Nat) : Bool :=
  match r with
  | .ok _ => false
  | .error e => e.status == code

/-- Helper `get_or_create_cart` (`cart.py`): return the user's cart, creating
it (flushed, not yet committed) when absent. -/
def get_or_create_cart (db : DB) (userId : Nat) : Cart × DB :=
  match db.carts.find? (fun c => c.user_id == userId) with
  | some c => (c, db)
  | none =>
    let c : Cart := ⟨db.nextCartId, userId⟩
    (c, { db with carts := db.carts ++ [c], nextCartId := db.nextCartId + 1 })

/-- The `add_to_cart` handler (`cart.py`): 404 for a missing product, 400 for
non-positive stock, then either increment an existing cart item or insert a
new one, rejecting with 400 when the (resulting) quantity exceeds stock. -/
def add_to_cart (db : DB) (userId productId : Nat) (quantity : ℤ) :
    Except HTTPError DB :=
  match findProduct db productId with
  | none => .error ⟨404, "Product not found"⟩
  | some product =>
    if product.stock ≤ 0 then .error ⟨400, "Product out of stock"⟩
    else
      let (cart, db1) := get_or_create_cart db userId
      match db1.cartItems.find?
          (fun ci => ci.cart_id == cart.id && ci.product_id == productId) with
      | some item =>
        let new_qty := item.quantity + quantity
        if new_qty > product.stock then
          .error ⟨400, "Requested quantity exceeds stock"⟩
        else
          .ok { db1 with
            cartItems := db1.cartItems.map fun ci =>
              if ci.id == item.id then { ci with quantity := new_qty } else ci }
      | none =>
        if quantity > product.stock then
          .error ⟨400, "Requested quantity exceeds stock"⟩
        else
          .ok { db1 with
            cartItems :=
              db1.cartItems ++ [⟨db1.nextCartItemId, cart.id, productId, quantity⟩]
            nextCartItemId := db1.nextCartItemId + 1 }

/-- Quantity the user already has of a product, through the same lookups
`add_to_cart` performs after `get_or_create_cart`: the existing cart item's
quantity, or 0 when the item is new. -/
def existingCartQty (db : DB) (userId productId : Nat) : ℤ :=
  let (cart, db1) := get_or_create_cart db userId
  match db1.cartItems.find?
      (fun ci => ci.cart_id == cart.id && ci.product_id == productId) with
  | some item => item.quantity
  | none => 0

/-- The `update_cart_item` handler (`cart.py`): locate the item joined with
the user's cart, then its product, and set the new quantity unless it
exceeds the product's stock. -/
def update_cart_item (db : DB) (userId itemId : Nat) (quantity : ℤ) :
    Except HTTPError DB :=
  match db.cartItems.find? (fun ci => ci.id == itemId &&
      db.carts.any (fun c => c.id == ci.cart_id && c.user_id == userId)) with
  | none => .error ⟨404, "Cart item not found"⟩
  | some item =>
    match findProduct db item.product_id with
    | none => .error ⟨404, "Product not found"⟩
    | some product =>
      if quantity > product.stock then
        .error ⟨400, "Requested quantity exceeds stock"⟩
      else
        .ok { db with
          cartItems := db.cartItems.map fun ci =>
            if ci.id == itemId then { ci with quantity := quantity } else ci }

/-- Character class of `re.search(r"[!@#$%^&*(),.?\":\x7b\x7d|<>]", password)`
in `users.py` (the two braces written with escapes). -/
def specialChars : List Char := "!@#$%^&*(),.?\":\x7b\x7d|<>".toList

/-- Result of `re.search(r"[A-Z]", password)`: some character with code
point in the ASCII range 65–90. -/
def hasUpper (pw : List Char) : Bool := pw.any fun c => 65 ≤ c.toNat && c.toNat ≤ 90

/-- Result of `re.search(r"[a-z]", password)`. -/
def hasLower (pw : List Char) : Bool := pw.any fun c => 97 ≤ c.toNat && c.toNat ≤ 122

/-- Result of `re.search(r"[0-9]", password)`. -/
def hasDigit (pw : List Char) : Bool := pw.any fun c => 48 ≤ c.toNat && c.toNat ≤ 57

/-- Result of searching for one of the special characters. -/
def hasSpecial (pw : List Char) : Bool := pw.any fun c => specialChars.contains c

/-- The `validate_password` function (`users.py`): `none` means the password
passed; `some e` models the `HTTPException` raised. Strings are modelled by
their list of code points, matching Python `len` and `re` on `str`. -/
def validate_password (password : List Char) : Option HTTPError :=
  if password.length < 8 then
    some ⟨400, "Password must be at least 8 characters long"⟩
  else if !hasUpper password then
    some ⟨400, "Password must contain at least one uppercase letter"⟩
  else if !hasLower password then
    some ⟨400, "Password must contain at least one lowercase letter"⟩
  else if !hasDigit password then
    some ⟨400, "Password must contain at least one number"⟩
  else if !hasSpecial password then
    some ⟨400, "Password should contain at least one special character"⟩
  else none

/-- Abstract interface of the external `phonenumbers` library as used by
`phone_validation.py`: `parse` with the default region `"KE"` already
applied (`none` models the `NumberParseException` it raises, which `parse`
also raises on a `None` input — the field `parse_none` records that
documented behaviour), validity checking, and E.164 formatting. -/
structure PhoneLib (α : Type) where
  parse : Option String → Option α
  is_valid_number : α → Bool
  formatE164 : α → String
  parse_none : parse none = none

/-- The `normalize_phone` function (`phone_validation.py`): parse with
default region KE, require validity, return E.164; any failure inside the
`try` block becomes `ValueError("Invalid phone number")`, modelled as
`.error ()`. -/
def normalize_phone {α : Type} (lib : PhoneLib α) (phone : Option String) :
    Except Unit String :=
  match lib.parse phone with
  | none => .error ()
  | some p => if lib.is_valid_number p then .ok (lib.formatE164 p) else .error ()

/-- Abstract interface of passlib's bcrypt `CryptContext` (`security.py`):
hashing and verification, with the library's round-trip guarantee that a
hash verifies against the exact string it was produced from. -/
structure CryptContext where
  hash : List Char → String
  verify : List Char → String → Bool
  verify_hash : ∀ s, verify s (hash s) = true

/-- The `hash_password` function (`security.py`): truncate to the first 72
characters (`password[:72]`), then hash. -/
def hash_password (ctx : CryptContext) (password : List Char) : String :=
  ctx.hash (password.take 72)

/-- The `verify_password` function (`security.py`): truncate the candidate to
72 characters, then verify against the stored hash. -/
def verify_password (ctx : CryptContext) (plain : List Char) (hashed : String) :
    Bool :=
  ctx.verify (plain.take 72) hashed

/-- The `register` handler (`users.py`): normalize the phone (400 on
`ValueError`), validate the password strength, reject duplicate emails,
then create the user row and their cart.  Token issuance (external JWT
library) is outside the data model; the new user's id is returned. -/
def register {α : Type} (lib : PhoneLib α) (ctx : CryptContext) (db : DB)
    (name email : String) (password : List Char) (phone : Option String) :
    Except HTTPError (DB × Nat) :=
  match normalize_phone lib phone with
  | .error () => .error ⟨400, "Invalid phone number"⟩
  | .ok normalized_phone =>
    match validate_password password with
    | some e => .error e
    | none =>
      match db.users.find? (fun u => u.email == email) with
      | some _ => .error ⟨400, "Email already registered"⟩
      | none =>
        let uid := db.nextUserId
        let user : UserRow :=
          ⟨uid, name, email, normalized_phone, hash_password ctx password⟩
        let db1 := { db with users := db.users ++ [user], nextUserId := uid + 1 }
        let cart : Cart := ⟨db1.nextCartId, uid⟩
        let db2 :=
          { db1 with carts := db1.carts ++ [cart], nextCartId := db1.nextCartId + 1 }
        .ok (db2, uid)

/-- Database state observed after a register request: every exception is
raised before the first commit, so on an error the database is unchanged. -/
def registerRun {α : Type} (lib : PhoneLib α) (ctx : CryptContext) (db : DB)
    (name email : String) (password : List Char) (phone : Option String) : DB :=
  match register lib ctx db name email password phone with
  | .ok (db', _) => db'
  | .error _ => db

/-- Pydantic validator `validate_discount` of `DealItemCreateSchema`
(`schemas.py`): absent, or between 0 and 100 inclusive. -/
def discount_ok (v : Option ℚ) : Bool :=
  match v with
  | none => true
  | some x => decide (0 ≤ x) && decide (x ≤ 100)

/-- Pydantic validator `validate_price` of `DealItemCreateSchema`
(`schemas.py`): absent, or at least 0. -/
def deal_price_ok (v : Option ℚ) : Bool :=
  match v with
  | none => true
  | some x => decide (0 ≤ x)

/-- Acceptance of a `DealItemCreateSchema` payload: both field validators
pass; otherwise pydantic rejects the request body with a validation error
before the deal handler runs. -/
def dealItemAccepted (deal_price discount_percentage : Option ℚ) : Bool :=
  discount_ok discount_percentage && deal_price_ok deal_price

/-- The allowed order statuses (`models.py`, class `OrderStatus`): the four
lowercase strings. -/
def allowedStatuses : List String := ["pending", "shipped", "delivered", "cancelled"]

/-- The `admin_update_order_status` handler (`order.py`): 404 when the order
does not exist, 400 when `new_status` is not exactly one of the four
lowercase strings, otherwise set the status. -/
def admin_update_order_status (db : DB) (orderId : Nat) (new_status : String) :
    Except HTTPError DB :=
  match db.orders.find? (fun o => o.id == orderId) with
  | none => .error ⟨404, "Order not found"⟩
  | some _ =>
    if !allowedStatuses.contains new_status then .error ⟨400, "Invalid status"⟩
    else
      .ok { db with
        orders := db.orders.map fun o =>
          if o.id == orderId then { o with status := new_status } else o }

/-- Python `str.lower()`, modelled characterwise over the string's code
points. -/
def pyLower (s : String) : String := String.mk (s.toList.map Char.toLower)

/-- Python `str.strip()`: drop leading and trailing whitespace. -/
def pyStrip (s : String) : String :=
  String.mk
    (((s.toList.dropWhile Char.isWhitespace).reverse.dropWhile
        Char.isWhitespace).reverse)

/-- The `admin_list_all_orders` handler (`order.py`): with no status filter
(or an empty string, which is falsy in Python) return all orders; otherwise
strip and lowercase the filter, reject it with 400 unless it is one of the
four statuses, and filter.  Sorting by `created_at` is not modelled. -/
def admin_list_all_orders (db : DB) (status : Option String) :
    Except HTTPError (List Order) :=
  match status with
  | none => .ok db.orders
  | some s =>
    if s == "" then .ok db.orders
    else
      let s' := pyLower (pyStrip s)
      if allowedStatuses.contains s' then
        .ok (db.orders.filter fun o => o.status == s')
      else .error ⟨400, "Invalid status"⟩

/-- Concrete database used to exercise the theorems: one user address, two
products, a cart holding both. -/
def dbW : DB :=
  { users := []
    addresses := [⟨10, 1⟩]
    products := [⟨5, "Cement", 7, 100⟩, ⟨6, "Sand", 3, 2⟩]
    carts := [⟨20, 1⟩]
    cartItems := [⟨30, 20, 5, 4⟩, ⟨31, 20, 6, 2⟩]
    orders := []
    orderItems := []
    nextUserId := 2
    nextCartId := 21
    nextCartItemId := 32
    nextOrderId := 1 }

/-- Empty database. -/
def dbEmpty : DB := ⟨[], [], [], [], [], [], [], 1, 1, 1, 1⟩

/-- Variant of `dbW` whose second cart item asks for more Sand than is in
stock. -/
def dbBadStock : DB :=
  { dbW with cartItems := [⟨30, 20, 5, 4⟩, ⟨31, 20, 6, 5⟩] }

/-- Concrete database with an order, used to exercise the admin handlers. -/
def dbOrders : DB :=
  { dbEmpty with
    orders := [⟨1, 1, 10, 34, 0, 34, "pending", none⟩]
    nextOrderId := 2 }

/-- Concrete instance of the abstract phonenumbers interface, used to
exercise the phone theorems: parses one fixed number. -/
def phoneLibW : PhoneLib String :=
  { parse := fun os =>
      match os with
      | none => none
      | some s => if s = "0712345678" then some "+254712345678" else none
    is_valid_number := fun _ => true
    formatE164 := fun p => p
    parse_none := rfl }

/-- Concrete instance of the abstract bcrypt interface, used to exercise the
password theorems: hashing is the identity and verification is equality. -/
def cryptW : CryptContext :=
  { hash := fun s => String.mk s
    verify := fun s h => String.mk s == h
    verify_hash := by intro s; simp }

/-! Helper lemmas about the checkout pipeline. -/

theorem findProduct_id (db : DB) (pid : Nat) (p : Product)
    (h : findProduct db pid = some p) : p.id = pid := by
  have := List.find?_some h
  simpa using this

theorem itemGood_iff (db : DB) (it : CartItem) :
    itemGood db it = true ↔
      ∃ p, findProduct db it.product_id = some p ∧ it.quantity ≤ p.stock := by
  unfold itemGood
  cases h : findProduct db it.product_id <;> simp [h]

theorem validateItems_ok (db : DB) (items : List CartItem) :
    ∀ acc : ℚ, (∀ it ∈ items, itemGood db it = true) →
      validateItems db items acc = .ok (acc + itemsSubtotal db items) := by
  induction items with
  | nil => intro acc _; simp [validateItems, itemsSubtotal]
  | cons it rest ih =>
    intro acc h
    obtain ⟨p, hp, hle⟩ :=
      (itemGood_iff db it).mp (h it (List.mem_cons_self it rest))
    simp only [validateItems, hp]
    rw [if_neg (not_lt.mpr hle),
      ih _ (fun x hx => h x (List.mem_cons_of_mem _ hx))]
    unfold itemsSubtotal productOf
    simp [hp]
    ring

theorem validateItems_failed (db : DB) (items : List CartItem) :
    ∀ acc : ℚ, failed (validateItems db items acc) = !items.all (itemGood db) := by
  induction items with
  | nil => intro acc; simp [validateItems, failed]
  | cons it rest ih =>
    intro acc
    cases hp : findProduct db it.product_id with
    | none => simp [validateItems, failed, itemGood, hp]
    | some p =>
      by_cases hq : it.quantity > p.stock
      · simp only [validateItems, hp]
        rw [if_pos hq]
        simp [failed, itemGood, hp, not_le.mpr hq]
      · simp only [validateItems, hp]
        rw [if_neg hq, ih]
        simp [itemGood, hp, not_lt.mp hq]

theorem decrementStock_eq (items : List CartItem) :
    ∀ products : List Product,
      decrementStock products items =
        products.map fun p => { p with stock := p.stock - qtyOf items p.id } := by
  induction items with
  | nil =>
    intro products
    unfold decrementStock
    have h : ∀ p : Product, ({ p with stock := p.stock - qtyOf [] p.id } : Product) = p := by
      intro p; cases p; simp [qtyOf]
    simp [h]
  | cons it rest ih =>
    intro products
    unfold decrementStock
    rw [ih, List.map_map]
    apply List.map_congr_left
    intro p _
    by_cases h : p.id = it.product_id
    · simp [Function.comp, qtyOf, h, sub_sub]
    · have h' : ¬ it.product_id = p.id := fun hx => h hx.symm
      simp [Function.comp, qtyOf, h, h']

theorem checkout_success (db : DB) (userId addressId : Nat) (notes : Option String)
    (addr : Address) (cart : Cart)
    (ha : db.addresses.find? (fun a => a.id == addressId && a.user_id == userId) =
      some addr)
    (hc : db.carts.find? (fun c => c.user_id == userId) = some cart)
    (hne : cartItemsOf db cart.id ≠ [])
    (hgood : ∀ it ∈ cartItemsOf db cart.id, itemGood db it = true) :
    checkout db userId addressId notes =
      .ok
        ({ db with
           products := decrementStock db.products (cartItemsOf db cart.id)
           orders := db.orders ++
             [⟨db.nextOrderId, userId, addressId,
               itemsSubtotal db (cartItemsOf db cart.id), 0,
               itemsSubtotal db (cartItemsOf db cart.id) + 0, "pending", notes⟩]
           orderItems := db.orderItems ++
             (cartItemsOf db cart.id).map (fun it =>
               let p := productOf db it.product_id
               ⟨db.nextOrderId, p.id, p.name, p.price, it.quantity⟩)
           cartItems := db.cartItems.filter (fun ci => ci.cart_id != cart.id)
           nextOrderId := db.nextOrderId + 1 },
         ⟨db.nextOrderId, userId, addressId,
          itemsSubtotal db (cartItemsOf db cart.id), 0,
          itemsSubtotal db (cartItemsOf db cart.id) + 0, "pending", notes⟩) := by
  have hitems : (db.cartItems.filter fun ci => ci.cart_id == cart.id) =
      cartItemsOf db cart.id := rfl
  simp only [checkout, ha, hc, hitems, List.isEmpty_eq_false.mpr hne,
    validateItems_ok db (cartItemsOf db cart.id) 0 hgood, zero_add,
    Bool.false_eq_true, if_false]

theorem filter_cart_cleared (l : List CartItem) (cid : Nat) :
    (l.filter (fun ci => ci.cart_id != cid)).filter (fun ci => ci.cart_id == cid) = [] := by
  induction l with
  | nil => rfl
  | cons x xs ih =>
    by_cases h : x.cart_id = cid <;> simp [List.filter_cons, h, ih]

/-- Claim C1: for every checkout request where the address belongs to the
user, the cart is non-empty, every cart item's product exists and its
quantity is at most the product's stock, checkout succeeds, creating one
order plus one order item per cart item (recording the product's name and
price at purchase and the item's quantity), decrementing each product's
stock by exactly the cart quantities, and deleting every cart item, leaving
the cart empty. -/
theorem claim_C1 (db : DB) (userId addressId : Nat) (notes : Option String)
    (addr : Address) (cart : Cart)
    (ha : db.addresses.find? (fun a => a.id == addressId && a.user_id == userId) =
      some addr)
    (hc : db.carts.find? (fun c => c.user_id == userId) = some cart)
    (hne : cartItemsOf db cart.id ≠ [])
    (hgood : (cartItemsOf db cart.id).all (itemGood db) = true) :
    ∃ st ord, checkout db userId addressId notes = .ok (st, ord) ∧
      st.orders = db.orders ++ [ord] ∧
      ord.buyer_id = userId ∧ ord.address_id = addressId ∧
      st.orderItems = db.orderItems ++
        (cartItemsOf db cart.id).map (fun it =>
          { order_id := ord.id
            product_id := it.product_id
            product_name := (productOf db it.product_id).name
            price_at_purchase := (productOf db it.product_id).price
            quantity := it.quantity }) ∧
      st.products = db.products.map
        (fun p => { p with stock := p.stock - qtyOf (cartItemsOf db cart.id) p.id }) ∧
      st.cartItems = db.cartItems.filter (fun ci => ci.cart_id != cart.id) ∧
      cartItemsOf st cart.id = [] ∧
      st.users = db.users ∧ st.addresses = db.addresses ∧ st.carts = db.carts := by
  have hgood' : ∀ it ∈ cartItemsOf db cart.id, itemGood db it = true :=
    List.all_eq_true.mp hgood
  refine ⟨_, _, checkout_success db userId addressId notes addr cart ha hc hne hgood',
    rfl, rfl, rfl, ?_, ?_, rfl, ?_, rfl, rfl, rfl⟩
  · dsimp only
    congr 1
    apply List.map_congr_left
    intro it hit
    obtain ⟨p, hp, _⟩ := (itemGood_iff db it).mp (hgood' it hit)
    simp [productOf, hp, findProduct_id db it.product_id p hp]
  · exact decrementStock_eq _ _
  · exact filter_cart_cleared _ _

/-- Witness for C1 on the concrete database `dbW`. -/
theorem claim_C1_witness :
    ∃ st ord, checkout dbW 1 10 none = .ok (st, ord) ∧
      st.orders = dbW.orders ++ [ord] ∧
      ord.buyer_id = 1 ∧ ord.address_id = 10 ∧
      st.orderItems = dbW.orderItems ++
        (cartItemsOf dbW 20).map (fun it =>
          { order_id := ord.id
            product_id := it.product_id
            product_name := (productOf dbW it.product_id).name
            price_at_purchase := (productOf dbW it.product_id).price
            quantity := it.quantity }) ∧
      st.products = dbW.products.map
        (fun p => { p with stock := p.stock - qtyOf (cartItemsOf dbW 20) p.id }) ∧
      st.cartItems = dbW.cartItems.filter (fun ci => ci.cart_id != 20) ∧
      cartItemsOf st 20 = [] ∧
      st.users = dbW.users ∧ st.addresses = dbW.addresses ∧ st.carts = dbW.carts :=
  claim_C1 dbW 1 10 none ⟨10, 1⟩ ⟨20, 1⟩ (by decide) (by decide) (by decide)
    (by decide)

/-- Claim C7: for every successful checkout, the order's subtotal is the sum
over the cart items of product price times quantity, the shipping fee is
0, and the total amount is subtotal plus shipping fee, hence equals the
subtotal. -/
theorem claim_C7 (db : DB) (userId addressId : Nat) (notes : Option String)
    (addr : Address) (cart : Cart)
    (ha : db.addresses.find? (fun a => a.id == addressId && a.user_id == userId) =
      some addr)
    (hc : db.carts.find? (fun c => c.user_id == userId) = some cart)
    (hne : cartItemsOf db cart.id ≠ [])
    (hgood : (cartItemsOf db cart.id).all (itemGood db) = true) :
    ∃ st ord, checkout db userId addressId notes = .ok (st, ord) ∧
      ord.subtotal = ((cartItemsOf db cart.id).map
        (fun it => (productOf db it.product_id).price * (it.quantity : ℚ))).sum ∧
      ord.shipping_fee = 0 ∧
      ord.total_amount = ord.subtotal + ord.shipping_fee ∧
      ord.total_amount = ord.subtotal := by
  have hgood' : ∀ it ∈ cartItemsOf db cart.id, itemGood db it = true :=
    List.all_eq_true.mp hgood
  refine ⟨_, _, checkout_success db userId addressId notes addr cart ha hc hne hgood',
    rfl, rfl, rfl, ?_⟩
  exact add_zero _

/-- Witness for C7 on the concrete database `dbW`. -/
theorem claim_C7_witness :
    ∃ st ord, checkout dbW 1 10 none = .ok (st, ord) ∧
      ord.subtotal = ((cartItemsOf dbW 20).map
        (fun it => (productOf dbW it.product_id).price * (it.quantity : ℚ))).sum ∧
      ord.shipping_fee = 0 ∧
      ord.total_amount = ord.subtotal + ord.shipping_fee ∧
      ord.total_amount = ord.subtotal :=
  claim_C7 dbW 1 10 none ⟨10, 1⟩ ⟨20, 1⟩ (by decide) (by decide) (by decide)
    (by decide)

/-- Claim C2: checkout is atomic with respect to its error branches — it
fails exactly when its precondition (address belongs to user, cart exists
and is non-empty, every item's product exists with enough stock) is
violated, and whenever it fails the committed database state is entirely
unchanged, every validation being performed before any mutation and all
mutations being committed in a single commit. -/
theorem claim_C2 (db : DB) (userId addressId : Nat) (notes : Option String) :
    (failed (checkout db userId addressId notes) = true ↔
      checkoutOk db userId addressId = false) ∧
    (failed (checkout db userId addressId notes) = true →
      checkoutRun db userId addressId notes = db) := by
  constructor
  · cases ha : db.addresses.find? (fun a => a.id == addressId && a.user_id == userId) with
    | none => simp [checkout, checkoutOk, failed, ha]
    | some addr =>
      cases hc : db.carts.find? (fun c => c.user_id == userId) with
      | none => simp [checkout, checkoutOk, failed, hc, ha]
      | some cart =>
        by_cases hne : (db.cartItems.filter fun ci => ci.cart_id == cart.id) = []
        · simp [checkout, checkoutOk, failed, ha, hc, hne]
        · have hie := List.isEmpty_eq_false.mpr hne
          cases hv : validateItems db (db.cartItems.filter fun ci => ci.cart_id == cart.id) 0 with
          | error e =>
            have hf := validateItems_failed db
              (db.cartItems.filter fun ci => ci.cart_id == cart.id) 0
            rw [hv] at hf
            have hallf :
                (db.cartItems.filter fun ci => ci.cart_id == cart.id).all (itemGood db) =
                  false := by
              cases hall :
                  (db.cartItems.filter fun ci => ci.cart_id == cart.id).all (itemGood db) with
              | false => rfl
              | true => rw [hall] at hf; simp [failed] at hf
            obtain ⟨x, hx, hgx⟩ : ∃ x ∈ db.cartItems.filter
                (fun ci => ci.cart_id == cart.id), ¬ itemGood db x = true := by
              by_contra hcon
              push_neg at hcon
              rw [List.all_eq_true.mpr hcon] at hallf
              exact Bool.true_eq_false ▸ hallf
            have hx' := List.mem_filter.mp hx
            simp [checkout, checkoutOk, failed, ha, hc, hie, hv]
            refine ⟨x, hx'.1, by simpa using hx'.2, by simpa using hgx⟩
          | ok s =>
            have hf := validateItems_failed db
              (db.cartItems.filter fun ci => ci.cart_id == cart.id) 0
            rw [hv] at hf
            have hall :
                (db.cartItems.filter fun ci => ci.cart_id == cart.id).all (itemGood db) =
                  true := by
              cases hall :
                  (db.cartItems.filter fun ci => ci.cart_id == cart.id).all (itemGood db) with
              | true => rfl
              | false => rw [hall] at hf; simp [failed] at hf
            simp [checkout, checkoutOk, failed, ha, hc, hie, hv]
            intro x hx hcid
            exact List.all_eq_true.mp hall x (List.mem_filter.mpr ⟨hx, by simp [hcid]⟩)
  · intro h
    unfold checkoutRun
    cases hk : checkout db userId addressId notes with
    | ok v => rw [hk] at h; simp [failed] at h
    | error e => rfl

/-- Witness for C2 on the empty database, where checkout fails (no address)
and the state is unchanged. -/
theorem claim_C2_witness :
    failed (checkout dbEmpty 1 1 none) = true ∧
      checkoutRun dbEmpty 1 1 none = dbEmpty := by
  have h := claim_C2 dbEmpty 1 1 none
  exact ⟨h.1.mpr (by decide), h.2 (h.1.mpr (by decide))⟩

theorem validateItems_first_bad (db : DB) (pre : List CartItem) :
    ∀ (acc : ℚ) (bad : CartItem) (rest : List CartItem) (pb : Product),
      (∀ x ∈ pre, itemGood db x = true) →
      findProduct db bad.product_id = some pb →
      pb.stock < bad.quantity →
      validateItems db (pre ++ bad :: rest) acc = .error ⟨400, stockMsg pb⟩ := by
  induction pre with
  | nil =>
    intro acc bad rest pb _ hp hq
    simp only [List.nil_append, validateItems, hp]
    rw [if_pos hq]
  | cons x xs ih =>
    intro acc bad rest pb hgood hp hq
    obtain ⟨px, hpx, hle⟩ :=
      (itemGood_iff db x).mp (hgood x (List.mem_cons_self x xs))
    simp only [List.cons_append, validateItems, hpx]
    rw [if_neg (not_lt.mpr hle)]
    exact ih _ bad rest pb (fun y hy => hgood y (List.mem_cons_of_mem _ hy)) hp hq

/-- Claim C3: stock checks guard every path that sets a cart quantity or
consumes stock.  Given the product exists, add_to_cart fails with 400
exactly when the resulting quantity (existing plus requested, or requested
for a new item) would exceed the product's stock or the stock is not
positive; given the cart item and its product exist, update_cart_item fails
with 400 exactly when the new quantity exceeds the stock; and checkout
fails with 400 for the first cart item whose quantity exceeds its product's
stock. -/
theorem claim_C3 :
    (∀ (db : DB) (userId productId : Nat) (q : ℤ) (p : Product),
      findProduct db productId = some p →
      (failedWith (add_to_cart db userId productId q) 400 = true ↔
        (p.stock ≤ 0 ∨ p.stock < existingCartQty db userId productId + q))) ∧
    (∀ (db : DB) (userId itemId : Nat) (q : ℤ) (item : CartItem) (p : Product),
      db.cartItems.find? (fun ci => ci.id == itemId &&
        db.carts.any (fun c => c.id == ci.cart_id && c.user_id == userId)) =
          some item →
      findProduct db item.product_id = some p →
      (failedWith (update_cart_item db userId itemId q) 400 = true ↔ p.stock < q)) ∧
    (∀ (db : DB) (userId addressId : Nat) (notes : Option String)
        (addr : Address) (cart : Cart) (pre : List CartItem) (bad : CartItem)
        (rest : List CartItem) (pb : Product),
      db.addresses.find? (fun a => a.id == addressId && a.user_id == userId) =
        some addr →
      db.carts.find? (fun c => c.user_id == userId) = some cart →
      cartItemsOf db cart.id = pre ++ bad :: rest →
      (∀ x ∈ pre, itemGood db x = true) →
      findProduct db bad.product_id = some pb →
      pb.stock < bad.quantity →
      checkout db userId addressId notes = .error ⟨400, stockMsg pb⟩) := by
  refine ⟨?_, ?_, ?_⟩
  · intro db userId productId q p hp
    rcases hgc : get_or_create_cart db userId with ⟨cart, db1⟩
    by_cases hs : p.stock ≤ 0
    · simp [add_to_cart, existingCartQty, hp, hgc, hs, failedWith]
    · cases hi : db1.cartItems.find?
          (fun ci => ci.cart_id == cart.id && ci.product_id == productId) with
      | some item =>
        by_cases hq : item.quantity + q > p.stock
        · simp [add_to_cart, existingCartQty, hp, hgc, hs, hi, hq, failedWith]
        · simp [add_to_cart, existingCartQty, hp, hgc, hs, hi, hq, failedWith,
            not_lt.mp hq, not_lt_of_le (not_lt.mp hq)]
      | none =>
        by_cases hq : q > p.stock
        · simp [add_to_cart, existingCartQty, hp, hgc, hs, hi, hq, failedWith]
        · simp [add_to_cart, existingCartQty, hp, hgc, hs, hi, hq, failedWith,
            not_lt.mp hq, not_lt_of_le (not_lt.mp hq)]
  · intro db userId itemId q item p hitem hp
    by_cases hq : q > p.stock
    · simp [update_cart_item, hitem, hp, hq, failedWith]
    · simp [update_cart_item, hitem, hp, hq, failedWith, not_lt.mp hq,
        not_lt_of_le (not_lt.mp hq)]
  · intro db userId addressId notes addr cart pre bad rest pb ha hc hsplit hpre hp hq
    have hitems : (db.cartItems.filter fun ci => ci.cart_id == cart.id) =
        pre ++ bad :: rest := hsplit
    have hne : (pre ++ bad :: rest) ≠ [] := by simp
    simp only [checkout, ha, hc, hitems, List.isEmpty_eq_false.mpr hne,
      Bool.false_eq_true, if_false,
      validateItems_first_bad db pre 0 bad rest pb hpre hp hq]

/-- Witness for C3: on `dbW` adding one more Sand (cart already holds the
whole stock) fails with 400, updating a cart item beyond stock fails with
400, and on `dbBadStock` checkout fails with 400 on the Sand item. -/
theorem claim_C3_witness :
    failedWith (add_to_cart dbW 1 6 1) 400 = true ∧
    failedWith (update_cart_item dbW 1 31 5) 400 = true ∧
    checkout dbBadStock 1 10 none = .error ⟨400, stockMsg ⟨6, "Sand", 3, 2⟩⟩ := by
  refine ⟨?_, ?_, ?_⟩
  · exact (claim_C3.1 dbW 1 6 1 ⟨6, "Sand", 3, 2⟩ (by decide)).mpr (by decide)
  · exact (claim_C3.2.1 dbW 1 31 5 ⟨31, 20, 6, 2⟩ ⟨6, "Sand", 3, 2⟩ (by decide)
      (by decide)).mpr (by decide)
  · exact claim_C3.2.2 dbBadStock 1 10 none ⟨10, 1⟩ ⟨20, 1⟩ [⟨30, 20, 5, 4⟩]
      ⟨31, 20, 6, 5⟩ [] ⟨6, "Sand", 3, 2⟩ (by decide) (by decide) (by decide)
      (by decide) (by decide) (by decide)

theorem validate_password_some_status (pw : List Char) (e : HTTPError)
    (h : validate_password pw = some e) : e.status = 400 := by
  unfold validate_password at h
  repeat' split at h
  all_goals simp_all
  all_goals subst h; rfl

theorem validate_password_none_iff (pw : List Char) :
    validate_password pw = none ↔
      (¬ pw.length < 8 ∧ hasUpper pw = true ∧ hasLower pw = true ∧
       hasDigit pw = true ∧ hasSpecial pw = true) := by
  unfold validate_password
  by_cases h1 : pw.length < 8
  · simp [h1]
  · by_cases h2 : hasUpper pw = true
    · by_cases h3 : hasLower pw = true
      · by_cases h4 : hasDigit pw = true
        · by_cases h5 : hasSpecial pw = true
          · simp [h1, h2, h3, h4, h5]
          · simp [h1, h2, h3, h4, h5]
        · simp [h1, h2, h3, h4]
      · simp [h1, h2, h3]
    · simp [h1, h2]

/-- Claim C4: validate_password accepts a password exactly when it is at
least 8 characters long and contains an uppercase letter, a lowercase
letter, a digit, and a special character from the fixed set; and whenever
the password is invalid, register fails with status 400 and creates no
user. -/
theorem claim_C4 :
    (∀ pw : List Char, validate_password pw = none ↔
      (8 ≤ pw.length ∧
       (∃ c ∈ pw, 65 ≤ c.toNat ∧ c.toNat ≤ 90) ∧
       (∃ c ∈ pw, 97 ≤ c.toNat ∧ c.toNat ≤ 122) ∧
       (∃ c ∈ pw, 48 ≤ c.toNat ∧ c.toNat ≤ 57) ∧
       (∃ c ∈ pw, c ∈ specialChars))) ∧
    (∀ (α : Type) (lib : PhoneLib α) (ctx : CryptContext) (db : DB)
        (name email : String) (pw : List Char) (phone : Option String),
      validate_password pw ≠ none →
      (∃ e, register lib ctx db name email pw phone = .error e ∧ e.status = 400) ∧
      registerRun lib ctx db name email pw phone = db) := by
  constructor
  · intro pw
    rw [validate_password_none_iff]
    simp [hasUpper, hasLower, hasDigit, hasSpecial, List.any_eq_true, Nat.not_lt]
  · intro α lib ctx db name email pw phone hbad
    cases hph : normalize_phone lib phone with
    | error u =>
      refine ⟨⟨⟨400, "Invalid phone number"⟩, ?_, rfl⟩, ?_⟩
      · cases u; simp [register, hph]
      · cases u; simp [registerRun, register, hph]
    | ok s =>
      obtain ⟨e, he⟩ := Option.ne_none_iff_exists'.mp hbad
      refine ⟨⟨e, ?_, validate_password_some_status pw e he⟩, ?_⟩
      · simp [register, hph, he]
      · simp [registerRun, register, hph, he]

/-- Witness for C4: a strong password passes, and registering with a weak
password fails with 400 leaving the database unchanged. -/
theorem claim_C4_witness :
    validate_password ("Abcdef1!".toList) = none ∧
    (∃ e, register phoneLibW cryptW dbEmpty "n" "n@x.com" ("short".toList)
        (some "0712345678") = .error e ∧ e.status = 400) ∧
    registerRun phoneLibW cryptW dbEmpty "n" "n@x.com" ("short".toList)
      (some "0712345678") = dbEmpty := by
  refine ⟨(claim_C4.1 _).mpr (by decide), ?_, ?_⟩
  · exact (claim_C4.2 String phoneLibW cryptW dbEmpty "n" "n@x.com"
      ("short".toList) (some "0712345678") (by decide)).1
  · exact (claim_C4.2 String phoneLibW cryptW dbEmpty "n" "n@x.com"
      ("short".toList) (some "0712345678") (by decide)).2

theorem normalize_phone_ok_iff {α : Type} (lib : PhoneLib α) (ph : Option String)
    (s : String) :
    normalize_phone lib ph = .ok s ↔
      ∃ p, lib.parse ph = some p ∧ lib.is_valid_number p = true ∧
        s = lib.formatE164 p := by
  unfold normalize_phone
  cases hp : lib.parse ph with
  | none => simp
  | some p =>
    by_cases hv : lib.is_valid_number p = true
    · simp [hv]
      exact eq_comm
    · simp [hv, Bool.eq_false_iff.mpr hv]

/-- Claim C5: normalize_phone maps every phone number the phonenumbers
library parses (default region KE) and validates to its E.164 format and
raises ValueError for every other input; register rejects invalid phones
with 400 and stores the normalized form on success. -/
theorem claim_C5 :
    (∀ (α : Type) (lib : PhoneLib α) (ph : Option String) (s : String),
      normalize_phone lib ph = .ok s ↔
        ∃ p, lib.parse ph = some p ∧ lib.is_valid_number p = true ∧
          s = lib.formatE164 p) ∧
    (∀ (α : Type) (lib : PhoneLib α) (ph : Option String),
      (¬ ∃ p, lib.parse ph = some p ∧ lib.is_valid_number p = true) →
      normalize_phone lib ph = .error ()) ∧
    (∀ (α : Type) (lib : PhoneLib α) (ctx : CryptContext) (db : DB)
        (name email : String) (pw : List Char) (ph : Option String),
      normalize_phone lib ph = .error () →
      register lib ctx db name email pw ph = .error ⟨400, "Invalid phone number"⟩) ∧
    (∀ (α : Type) (lib : PhoneLib α) (ctx : CryptContext) (db : DB)
        (name email : String) (pw : List Char) (ph : Option String) (db' : DB)
        (uid : Nat),
      register lib ctx db name email pw ph = .ok (db', uid) →
      ∃ nph, normalize_phone lib ph = .ok nph ∧
        ∃ u ∈ db'.users, u.id = uid ∧ u.phone = nph) := by
  refine ⟨?_, ?_, ?_, ?_⟩
  · intro α lib ph s
    exact normalize_phone_ok_iff lib ph s
  · intro α lib ph hno
    cases hn : normalize_phone lib ph with
    | error u => cases u; rfl
    | ok s =>
      obtain ⟨p, hp, hv, -⟩ := (normalize_phone_ok_iff lib ph s).mp hn
      exact absurd ⟨p, hp, hv⟩ hno
  · intro α lib ctx db name email pw ph h
    simp [register, h]
  · intro α lib ctx db name email pw ph db' uid h
    cases hph : normalize_phone lib ph with
    | error u => cases u; simp [register, hph] at h
    | ok nph =>
      cases hvp : validate_password pw with
      | some e => simp [register, hph, hvp] at h
      | none =>
        cases hem : db.users.find? (fun u => u.email == email) with
        | some u => simp [register, hph, hvp, hem] at h
        | none =>
          simp only [register, hph, hvp, hem, Except.ok.injEq, Prod.mk.injEq] at h
          obtain ⟨h1, h2⟩ := h
          refine ⟨nph, rfl, ⟨uid, name, email, nph, hash_password ctx pw⟩, ?_, rfl, rfl⟩
          rw [← h1]
          simp [← h2]

/-- Witness for C5: the concrete library instance normalizes its one valid
number, rejects another, register fails with 400 on the invalid phone, and
a successful registration stores the E.164 form. -/
theorem claim_C5_witness :
    normalize_phone phoneLibW (some "0712345678") = .ok "+254712345678" ∧
    normalize_phone phoneLibW (some "0700") = .error () ∧
    register phoneLibW cryptW dbEmpty "n" "n@x.com" ("Abcdef1!".toList)
      (some "0700") = .error ⟨400, "Invalid phone number"⟩ ∧
    (∃ nph, normalize_phone phoneLibW (some "0712345678") = .ok nph ∧
      ∃ u ∈ (⟨[⟨1, "n", "n@x.com", "+254712345678", "Abcdef1!"⟩], [], [],
        [⟨1, 1⟩], [], [], [], 2, 2, 1, 1⟩ : DB).users, u.id = 1 ∧ u.phone = nph) := by
  refine ⟨?_, ?_, ?_, ?_⟩
  · exact (claim_C5.1 String phoneLibW (some "0712345678") "+254712345678").mpr
      ⟨"+254712345678", rfl, rfl, rfl⟩
  · refine claim_C5.2.1 String phoneLibW (some "0700") ?_
    rintro ⟨p, hp, -⟩
    simp [phoneLibW] at hp
  · exact claim_C5.2.2.1 String phoneLibW cryptW dbEmpty "n" "n@x.com"
      ("Abcdef1!".toList) (some "0700") rfl
  · exact claim_C5.2.2.2 String phoneLibW cryptW dbEmpty "n" "n@x.com"
      ("Abcdef1!".toList) (some "0712345678")
      ⟨[⟨1, "n", "n@x.com", "+254712345678", "Abcdef1!"⟩], [], [],
        [⟨1, 1⟩], [], [], [], 2, 2, 1, 1⟩ 1 rfl

/-- Claim C8: hashing and verification both truncate to the first 72
characters, so any two passwords agreeing on their first 72 characters
verify against each other's hashes; in particular every password verifies
against its own hash, and characters beyond position 72 never affect
authentication. -/
theorem claim_C8 (ctx : CryptContext) (p1 p2 : List Char)
    (h : p1.take 72 = p2.take 72) :
    verify_password ctx p1 (hash_password ctx p2) = true ∧
    (∀ p : List Char, verify_password ctx p (hash_password ctx p) = true) ∧
    (∀ hs : String, verify_password ctx p1 hs = verify_password ctx p2 hs) := by
  refine ⟨?_, fun p => ctx.verify_hash _, fun hs => by simp [verify_password, h]⟩
  unfold verify_password hash_password
  rw [h]
  exact ctx.verify_hash _

/-- Witness for C8: a 73-character password and one differing only at
position 73 authenticate interchangeably under the concrete context. -/
theorem claim_C8_witness :
    verify_password cryptW (List.replicate 73 'a')
      (hash_password cryptW (List.replicate 72 'a' ++ ['b'])) = true ∧
    verify_password cryptW (List.replicate 73 'a')
      (hash_password cryptW (List.replicate 73 'a')) = true ∧
    verify_password cryptW (List.replicate 73 'a') "xyz" =
      verify_password cryptW (List.replicate 72 'a' ++ ['b']) "xyz" := by
  have h := claim_C8 cryptW (List.replicate 73 'a')
    (List.replicate 72 'a' ++ ['b']) (by decide)
  exact ⟨h.1, h.2.1 _, h.2.2 "xyz"⟩

/-- Claim C9: although the schema declares phone optional with default None,
register normalizes unconditionally and normalize_phone raises ValueError
on None, so every registration omitting the phone fails with 400 "Invalid
phone number" and creates no user. -/
theorem claim_C9 (α : Type) (lib : PhoneLib α) (ctx : CryptContext) (db : DB)
    (name email : String) (pw : List Char) :
    register lib ctx db name email pw none = .error ⟨400, "Invalid phone number"⟩ ∧
    registerRun lib ctx db name email pw none = db := by
  have hph : normalize_phone lib none = .error () := by
    unfold normalize_phone
    rw [lib.parse_none]
  exact ⟨by simp [register, hph], by simp [registerRun, register, hph]⟩

/-- Witness for C9 on the concrete instances: registering without a phone
fails with 400 and leaves the database unchanged. -/
theorem claim_C9_witness :
    register phoneLibW cryptW dbEmpty "n" "n@x.com" ("Abcdef1!".toList) none =
      .error ⟨400, "Invalid phone number"⟩ ∧
    registerRun phoneLibW cryptW dbEmpty "n" "n@x.com" ("Abcdef1!".toList) none =
      dbEmpty :=
  claim_C9 String phoneLibW cryptW dbEmpty "n" "n@x.com" ("Abcdef1!".toList)

/-- Claim C6: a deal item passes the schema validators exactly when its
discount_percentage is absent or between 0 and 100 inclusive and its
deal_price is absent or at least 0; any other value is rejected by the
schema before the deal create or update handler runs. -/
theorem claim_C6 (deal_price discount_percentage : Option ℚ) :
    dealItemAccepted deal_price discount_percentage = true ↔
      ((discount_percentage = none ∨
        ∃ x, discount_percentage = some x ∧ 0 ≤ x ∧ x ≤ 100) ∧
       (deal_price = none ∨ ∃ x, deal_price = some x ∧ 0 ≤ x)) := by
  cases discount_percentage with
  | none =>
    cases deal_price with
    | none => simp [dealItemAccepted, discount_ok, deal_price_ok]
    | some y => simp [dealItemAccepted, discount_ok, deal_price_ok]
  | some x =>
    cases deal_price with
    | none => simp [dealItemAccepted, discount_ok, deal_price_ok]
    | some y => simp [dealItemAccepted, discount_ok, deal_price_ok, and_assoc]

/-- Witness for C6: a 50% discount at price 5 is accepted. -/
theorem claim_C6_witness : dealItemAccepted (some 5) (some 50) = true :=
  (claim_C6 (some 5) (some 50)).mpr
    ⟨Or.inr ⟨50, rfl, by norm_num, by norm_num⟩, Or.inr ⟨5, rfl, by norm_num⟩⟩

/-- Claim C10: order-status handling is case-asymmetric.  Given the order
exists, admin_update_order_status succeeds exactly when the status is one
of the four lowercase strings and fails with 400 otherwise (so "PENDING" is
rejected), while admin_list_all_orders strips and lowercases its non-empty
filter before the same membership check, accepting any casing. -/
theorem claim_C10 :
    (∀ (db : DB) (orderId : Nat) (s : String) (ord : Order),
      db.orders.find? (fun o => o.id == orderId) = some ord →
      (((∃ db', admin_update_order_status db orderId s = .ok db') ↔
          s ∈ allowedStatuses) ∧
       (s ∉ allowedStatuses →
         admin_update_order_status db orderId s = .error ⟨400, "Invalid status"⟩))) ∧
    (∀ (db : DB) (s : String), s ≠ "" → pyLower (pyStrip s) ∈ allowedStatuses →
      ∃ l, admin_list_all_orders db (some s) = .ok l) := by
  constructor
  · intro db orderId s ord hord
    by_cases hmem : s ∈ allowedStatuses
    · have hs : allowedStatuses.contains s = true := List.elem_iff.mpr hmem
      constructor
      · simp [admin_update_order_status, hord, hs, hmem]
      · intro hns; exact absurd hmem hns
    · have hs : allowedStatuses.contains s = false := by
        cases hc : allowedStatuses.contains s with
        | false => rfl
        | true => exact absurd (List.elem_iff.mp hc) hmem
      constructor
      · simp [admin_update_order_status, hord, hs, hmem]
      · intro hx
        simp [admin_update_order_status, hord, hs]
        exact hx
  · intro db s hne hmem
    have hs' : (s == "") = false := beq_eq_false_iff_ne.mpr hne
    have hc : allowedStatuses.contains (pyLower (pyStrip s)) = true :=
      List.elem_iff.mpr hmem
    exact ⟨db.orders.filter (fun o => o.status == pyLower (pyStrip s)),
      by simp [admin_list_all_orders, hs', hc, hmem]⟩

/-- Witness for C10: "PENDING" is rejected by the update handler, "pending"
is accepted, and the list handler accepts the filter "PENDING". -/
theorem claim_C10_witness :
    admin_update_order_status dbOrders 1 "PENDING" =
      .error ⟨400, "Invalid status"⟩ ∧
    (∃ db', admin_update_order_status dbOrders 1 "pending" = .ok db') ∧
    (∃ l, admin_list_all_orders dbOrders (some "PENDING") = .ok l) := by
  refine ⟨?_, ?_, ?_⟩
  · exact (claim_C10.1 dbOrders 1 "PENDING" ⟨1, 1, 10, 34, 0, 34, "pending", none⟩
      (by decide)).2 (by decide)
  · exact (claim_C10.1 dbOrders 1 "pending" ⟨1, 1, 10, 34, 0, 34, "pending", none⟩
      (by decide)).1.mpr (by decide)
  · exact claim_C10.2 dbOrders "PENDING" (by decide) (by decide)
